import Mathlib

/-!
Verification of the kapacitor management layer of `server/kapacitors.go`
(chronograf).  The Go handlers and helpers are shallowly embedded as pure
Lean functions: the stores become association lists, fallible operations
return `Option`/`Except`, and pointer-typed optional JSON fields become
`Option` values (Go `nil` = `none`, an allocated empty slice/map = `some []`).
-/

namespace Chronograf

/-! ## Data model -/

/-- Modelled from the spec: `chronograf.Server` (declared in the chronograf
package, outside `src/`): the stored record of a kapacitor instance, with
identity `id`, owning source `srcID`, `name`, `url`, credentials and the
`active` flag — exactly the fields `NewKapacitor` populates and
`UpdateKapacitor` patches in `src/server/kapacitors.go`. -/
structure Server where
  id : Int
  srcID : Int
  name : String
  url : String
  username : String
  password : String
  active : Bool
deriving DecidableEq, Repr

/-- Modelled from the spec: `chronograf.Field` — "each field has a name and an
ordered sequence of aggregation function names".  The slice type is pinned by
`make([]chronograf.Field, 0)` in `newAlertResponse`; a `nil` funcs slice is
`none`. -/
structure Field where
  name : String
  funcs : Option (List String)
deriving DecidableEq, Repr

/-- Modelled from the spec: the `groupBy` part of a query, holding the
grouping tags (`nil` slice = `none`, pinned by `make([]string, 0)`). -/
structure GroupBy where
  tags : Option (List String)
deriving DecidableEq, Repr

/-- Modelled from the spec: `chronograf.QueryConfig` — nested query with
`database`, `retentionPolicy`, optional `id`, `fields`, `groupBy.tags` and a
`tags` mapping (`map[string][]string`, `nil` map = `none`, pinned by
`make(map[string][]string)` in `newAlertResponse`). -/
structure QueryConfig where
  id : String
  database : String
  retentionPolicy : String
  fields : Option (List Field)
  groupBy : GroupBy
  tags : Option (List (String × List String))
deriving DecidableEq, Repr

/-- Modelled from the spec: `chronograf.KapacitorProperty` — a property of an
alert output node, with its own `args` sequence (`nil` = `none`). -/
structure KapacitorProperty where
  name : String
  args : Option (List String)
deriving DecidableEq, Repr

/-- Modelled from the spec: `chronograf.KapacitorNode` — an alert output node
descriptor with `args` and `properties`.  The slice types are pinned by
`make([]chronograf.KapacitorNode, 0)` and
`make([]chronograf.KapacitorProperty, 0)` in `newAlertResponse`: they are
slices of struct values, not of pointers. -/
structure KapacitorNode where
  name : String
  args : Option (List String)
  properties : Option (List KapacitorProperty)
deriving DecidableEq, Repr

/-- Modelled from the spec: `chronograf.AlertRule` — id, name,
trigger/triggerValues, `every`, message, `alerts`, `alertNodes`, the optional
`query` (a pointer in Go, hence `Option`) and the `TICKScript` carried on
listed rules (used at `rule.TICKScript` in `KapacitorRulesGet`). -/
structure AlertRule where
  id : String
  name : String
  trigger : String
  triggerValues : String
  every : String
  message : String
  alerts : Option (List String)
  alertNodes : Option (List KapacitorNode)
  query : Option QueryConfig
  tickScript : String
deriving DecidableEq, Repr

/-- Error values produced by the handlers and validators; each constructor
carries exactly the data the corresponding Go error message is built from, so
two error values are equal iff the produced responses are identical. -/
inductive KapError where
  | notFound (id : Int)
  | nameURLRequired
  | invalidURI
  | noScheme
  | noQueryDefined
  | funcsRequireEvery
  | invalidStatus (status : String)
deriving DecidableEq, Repr

/-! ## Models of external collaborators (Go standard library, kapacitor client) -/

/-- Scheme characters after the first: letters, digits, `+`, `-`, `.`. -/
def isSchemeChar (c : Char) : Bool :=
  c.isAlpha || c.isDigit || c == '+' || c == '-' || c == '.'

/-- Scans for a URI scheme: a leading letter followed by scheme characters and
a `:`.  Returns the scheme and the remainder, or `none` when the string has no
scheme prefix. -/
def schemeSplitAux (acc : List Char) : List Char → Option (String × String)
  | [] => none
  | c :: cs =>
    if c == ':' then
      if acc.isEmpty then none else some (String.mk acc.reverse, String.mk cs)
    else if (acc.isEmpty && c.isAlpha) || (!acc.isEmpty && isSchemeChar c) then
      schemeSplitAux (c :: acc) cs
    else
      none

/-- A parsed URL, reduced to the parts `postKapacitorRequest.Valid` inspects. -/
structure ParsedURL where
  scheme : String
  rest : String
deriving DecidableEq, Repr

/-- Modelled from the spec: Go `net/url.ParseRequestURI` (standard library,
an external collaborator, not part of this repository).  The spec requires the
url to "parse as an absolute URI with a non-empty scheme"; this model accepts
an absolute URI `scheme:rest` or a rooted path `/...` (which parses with an
empty scheme, as in Go), and rejects everything else. -/
def parseRequestURI (s : String) : Option ParsedURL :=
  if s.isEmpty then none
  else
    match schemeSplitAux [] s.toList with
    | some (sch, rest) => some ⟨sch, rest⟩
    | none => if s.startsWith "/" then some ⟨"", s⟩ else none

/-- Hexadecimal digits used by percent-encoding. -/
def hexDigits : List Char :=
  ['0', '1', '2', '3', '4', '5', '6', '7', '8', '9', 'A', 'B', 'C', 'D', 'E', 'F']

/-- Percent-encodes one character as Go `net/url.QueryEscape` does on a byte:
unreserved characters pass through, a space becomes `+`, everything else
becomes `%XX` (the model covers the ASCII range the hrefs use). -/
def escQueryChar (c : Char) : String :=
  if c.isAlphanum || c == '-' || c == '_' || c == '.' || c == '~' then
    String.mk [c]
  else if c == ' ' then
    "+"
  else
    let n := c.toNat % 256
    String.mk ['%', hexDigits.getD (n / 16) '0', hexDigits.getD (n % 16) '0']

/-- Modelled from the spec: Go `net/url.QueryEscape` (standard library) —
the "percent-encoded href" placed in the `path` query parameter. -/
def queryEscape (s : String) : String :=
  s.foldl (fun acc c => acc ++ escQueryChar c) ""

/-- Modelled from the spec: `RemoteTaskClient.Href` — "pure, deterministic
locator derivation from the client's base configuration plus the task id; no
network call".  The client lives in the kapacitor package, outside `src/`;
modelled as the engine's task path for the id. -/
def clientHref (tid : String) : String :=
  "/kapacitor/v1/tasks/" ++ tid

/-- Modelled from the spec: `RemoteTaskClient.HrefOutput` — deterministic
locator for a task's output, derived from the task id. -/
def clientHrefOutput (tid : String) : String :=
  clientHref tid ++ "/output"

/-! ## Instance registry operations (`src/server/kapacitors.go`) -/

/-- Request body of `POST /sources/{id}/kapacitors`
(`postKapacitorRequest`): `name` and `url` are pointers in Go, so absent
fields are `none`. -/
structure PostKapacitorRequest where
  name : Option String
  url : Option String
  username : String
  password : String
  active : Bool
deriving DecidableEq, Repr

/-- Embeds `postKapacitorRequest.Valid` (kapacitors.go lines 22-36): requires
`name` and `url` non-nil, the url to parse, and the parsed scheme to be
non-empty.  Returns `none` on success, mirroring a `nil` Go error. -/
def PostKapacitorRequest.Valid (p : PostKapacitorRequest) : Option KapError :=
  match p.name, p.url with
  | none, _ => some .nameURLRequired
  | _, none => some .nameURLRequired
  | some _, some u =>
    match parseRequestURI u with
    | none => some .invalidURI
    | some parsed => if parsed.scheme = "" then some .noScheme else none

/-- Outward hypermedia links of an instance (`kapaLinks`). -/
structure KapaLinks where
  proxy : String
  self : String
  rules : String
deriving DecidableEq, Repr

/-- Outward representation of an instance (`kapacitor`). -/
structure Kapacitor where
  id : Int
  name : String
  url : String
  username : String
  password : String
  active : Bool
  links : KapaLinks
deriving DecidableEq, Repr

/-- Embeds `newKapacitor` (kapacitors.go lines 99-113).  Note the Go code
never copies `Password` into the response, so the response password is the
zero value. -/
def newKapacitor (srv : Server) : Kapacitor :=
  let httpAPISrcs := "/chronograf/v1/sources"
  { id := srv.id
    name := srv.name
    username := srv.username
    password := ""
    url := srv.url
    active := srv.active
    links :=
      { self := httpAPISrcs ++ "/" ++ toString srv.srcID ++ "/kapacitors/" ++ toString srv.id
        proxy := httpAPISrcs ++ "/" ++ toString srv.srcID ++ "/kapacitors/" ++ toString srv.id ++ "/proxy"
        rules := httpAPISrcs ++ "/" ++ toString srv.srcID ++ "/kapacitors/" ++ toString srv.id ++ "/rules" } }

/-- Result of the `NewKapacitor` handler, restricted to the outcomes the
claims are about. -/
inductive NewKapacitorResult where
  | notFound (id : Int)
  | invalidData (e : KapError)
  | created (k : Kapacitor)
deriving DecidableEq, Repr

/-- True on the `created` outcome. -/
def NewKapacitorResult.isCreated : NewKapacitorResult → Bool
  | .created _ => true
  | _ => false

/-- True on the `invalidData` outcome. -/
def NewKapacitorResult.isInvalidData : NewKapacitorResult → Bool
  | .invalidData _ => true
  | _ => false

/-- Embeds the `NewKapacitor` handler (kapacitors.go lines 55-97): source
lookup first (`notFound` on a miss), then `req.Valid()` (`invalidData` on
failure), then the store `Add` (modelled by the store assigning `assignedID`)
and the `newKapacitor` response.  The `getD ""` dereferences mirror
`*req.Name`/`*req.URL`, which `Valid` has proven non-nil on this path. -/
def newKapacitorHandler (sources : List Int) (srcID : Int)
    (req : PostKapacitorRequest) (assignedID : Int) : NewKapacitorResult :=
  if sources.contains srcID then
    match req.Valid with
    | some e => .invalidData e
    | none =>
      .created (newKapacitor
        { id := assignedID
          srcID := srcID
          name := req.name.getD ""
          username := req.username
          password := req.password
          url := req.url.getD ""
          active := req.active })
  else
    .notFound srcID

/-- Embeds `ServersStore.Get` as used by the handlers: lookup of a stored
instance by id in the backing store. -/
def getServer (store : List Server) (id : Int) : Option Server :=
  store.find? (fun s => s.id == id)

/-- Embeds the shared scope-resolution step of `KapacitorsID`,
`RemoveKapacitor`, `UpdateKapacitor` and every rule handler (kapacitors.go
lines 162-167, 187-192, 237-242, ...):
`srv, err := h.ServersStore.Get(ctx, id)` followed by
`if err != nil || srv.SrcID != srcID` calling `notFound(w, id, h.Logger)` —
a store miss and a source mismatch produce the same `notFound(id)`
response. -/
def resolveKapacitor (store : List Server) (srcID kid : Int) : Except KapError Server :=
  match getServer store kid with
  | none => .error (.notFound kid)
  | some srv => if srv.srcID = srcID then .ok srv else .error (.notFound kid)

/-- Request body of `PATCH /sources/{id}/kapacitors/{kid}`
(`patchKapacitorRequest`): every field is a pointer, absent = `none`. -/
structure PatchKapacitorRequest where
  name : Option String
  url : Option String
  username : Option String
  password : Option String
  active : Option Bool
deriving DecidableEq, Repr

/-- Embeds `patchKapacitorRequest.Valid` (kapacitors.go lines 210-221): only a
present url is validated. -/
def PatchKapacitorRequest.Valid (p : PatchKapacitorRequest) : Option KapError :=
  match p.url with
  | none => none
  | some u =>
    match parseRequestURI u with
    | none => some .invalidURI
    | some parsed => if parsed.scheme = "" then some .noScheme else none

/-- Embeds the field merge of `UpdateKapacitor` (kapacitors.go lines 255-269):
each present request field overwrites the stored value, each `nil` field is
skipped, in the source's order (name, url, password, username, active). -/
def updateKapacitorMerge (srv : Server) (req : PatchKapacitorRequest) : Server :=
  let srv := match req.name with
    | some v => { srv with name := v }
    | none => srv
  let srv := match req.url with
    | some v => { srv with url := v }
    | none => srv
  let srv := match req.password with
    | some v => { srv with password := v }
    | none => srv
  let srv := match req.username with
    | some v => { srv with username := v }
    | none => srv
  match req.active with
  | some v => { srv with active := v }
  | none => srv

/-! ## Rule translation and validation (`src/server/kapacitors.go`) -/

/-- Outward hypermedia links of a rule response (`alertLinks`). -/
structure AlertLinks where
  self : String
  kapacitor : String
  output : String
deriving DecidableEq, Repr

/-- Outward representation of a rule (`alertResponse`): the embedded
`AlertRule` plus tickscript, status and links. -/
structure AlertResponse where
  alertRule : AlertRule
  tickscript : String
  status : String
  links : AlertLinks
deriving DecidableEq, Repr

/-- Embeds `newAlertResponse` (kapacitors.go lines 341-399).  The top-level
normalizations act on `res` itself and are effective: `Alerts`, `AlertNodes`,
and — through the `Query` pointer — `Query.ID`, `Query.Fields`,
`Query.GroupBy.Tags` and `Query.Tags`.  The loops
`for _, n := range res.AlertNodes`, `for _, p := range n.Properties` and
`for _, f := range res.Query.Fields` iterate over value copies (the slices
hold struct values, pinned by the `make` calls), so the assignments to
`n.Args`, `n.Properties`, `p.Args` and `f.Funcs` mutate the copies only and
the stored elements pass through unchanged — the embedding therefore leaves
the nodes and fields as they arrived. -/
def newAlertResponse (rule : AlertRule) (tickScript : String)
    (href hrefOutput : String) (status : String) (srcID kapaID : Int) : AlertResponse :=
  let base := "/chronograf/v1/sources/" ++ toString srcID ++ "/kapacitors/" ++ toString kapaID
  let links : AlertLinks :=
    { self := base ++ "/rules/" ++ rule.id
      kapacitor := base ++ "/proxy?path=" ++ queryEscape href
      output := base ++ "/proxy?path=" ++ queryEscape hrefOutput }
  let r1 : AlertRule :=
    { rule with
      alerts := some (rule.alerts.getD [])
      alertNodes := some (rule.alertNodes.getD []) }
  let r2 : AlertRule :=
    match r1.query with
    | none => r1
    | some q =>
      let q1 := if q.id = "" then { q with id := r1.id } else q
      let q2 := { q1 with fields := some (q1.fields.getD []) }
      let q3 := { q2 with groupBy := { q2.groupBy with tags := some (q2.groupBy.tags.getD []) } }
      let q4 := { q3 with tags := some (q3.tags.getD []) }
      { r1 with query := some q4 }
  { alertRule := r2
    tickscript := tickScript
    status := status
    links := links }

/-- Embeds `ValidRuleRequest` (kapacitors.go lines 402-419): reject a missing
query; compute `hasFuncs` over the query's fields; reject a rule with
functions but an empty `every` window. -/
def ValidRuleRequest (rule : AlertRule) : Option KapError :=
  match rule.query with
  | none => some .noQueryDefined
  | some q =>
    let hasFuncs := (q.fields.getD []).any (fun f => (f.funcs.getD []).length > 0)
    if rule.every = "" && hasFuncs then some .funcsRequireEvery else none

/-- Request body of the rule-status endpoint (`KapacitorStatus`). -/
structure KapacitorStatus where
  status : String
deriving DecidableEq, Repr

/-- Embeds `KapacitorStatus.Valid` (kapacitors.go lines 484-489). -/
def KapacitorStatus.Valid (k : KapacitorStatus) : Option KapError :=
  if k.status = "enabled" || k.status = "disabled" then none
  else some (.invalidStatus k.status)

/-- Lookup in the engine's bulk status mapping (`map[string]string` from
`AllStatus`), modelled as an association list. -/
def lookupStatus (statuses : List (String × String)) (tid : String) : Option String :=
  (statuses.find? (fun p => p.1 == tid)).map Prod.snd

/-- Embeds the merge loop of `KapacitorRulesGet` (kapacitors.go lines
585-598): each listed rule whose id appears in the status map contributes a
`newAlertResponse` with that status; a rule with no status entry is skipped
(`continue`). -/
def kapacitorRulesGetMerge (rules : List AlertRule) (statuses : List (String × String))
    (srcID kapaID : Int) : List AlertResponse :=
  rules.filterMap (fun rule =>
    match lookupStatus statuses rule.id with
    | none => none
    | some status =>
      some (newAlertResponse rule rule.tickScript (clientHref rule.id)
        (clientHrefOutput rule.id) status srcID kapaID))

/-- Embeds `KapacitorRulesPut` up to the remote `Update` call (kapacitors.go
lines 422-469): scope resolution, the existence check `c.Get(ctx, tid)`
(modelled by the abstract engine response `engineGet`), then
`req.ID = tid; c.Update(ctx, c.Href(tid), req)`.  Returns the `(href, rule)`
pair passed to `Update`, or `none` when the handler short-circuits. -/
def kapacitorRulesPutUpdateCall (store : List Server) (srcID kid : Int)
    (tid : String) (engineGet : String → Option AlertRule) (req : AlertRule) :
    Option (String × AlertRule) :=
  match resolveKapacitor store srcID kid with
  | .error _ => none
  | .ok _ =>
    match engineGet tid with
    | none => none
    | some _ => some (clientHref tid, { req with id := tid })

/-! ## Theorems -/

/-- Claim C7: status validation succeeds exactly for the strings `"enabled"`
and `"disabled"`: those two validate with no error, and every other string
yields the invalid-status error built from that string. -/
theorem kapacitorStatus_valid_characterization (k : KapacitorStatus) :
    (k.status = "enabled" ∨ k.status = "disabled" → k.Valid = none) ∧
    (k.status ≠ "enabled" → k.status ≠ "disabled" →
      k.Valid = some (.invalidStatus k.status)) := by
  constructor
  · intro h
    rcases h with h | h <;> simp [KapacitorStatus.Valid, h]
  · intro h1 h2
    simp [KapacitorStatus.Valid, h1, h2]

/-- Claim C7 witness: the characterization applied at `"enabled"` and at
`"bogus"`. -/
theorem kapacitorStatus_valid_characterization_witness :
    (⟨"enabled"⟩ : KapacitorStatus).Valid = none ∧
    (⟨"bogus"⟩ : KapacitorStatus).Valid = some (.invalidStatus "bogus") :=
  ⟨(kapacitorStatus_valid_characterization ⟨"enabled"⟩).1 (Or.inl rfl),
   (kapacitorStatus_valid_characterization ⟨"bogus"⟩).2 (by decide) (by decide)⟩

/-- Claim C8: hypermedia links are deterministic functions of the
identifiers and hrefs: a created instance's self link is
`/chronograf/v1/sources/{srcID}/kapacitors/{id}`, and a rule response's
kapacitor and output links both route through
`/chronograf/v1/sources/{srcID}/kapacitors/{kapaID}/proxy?path=` followed by
the respective percent-encoded engine href. -/
theorem hypermedia_links_deterministic (srv : Server) (rule : AlertRule)
    (ts href hrefOutput status : String) (srcID kapaID : Int) :
    (newKapacitor srv).links.self =
      "/chronograf/v1/sources/" ++ toString srv.srcID ++ "/kapacitors/" ++ toString srv.id ∧
    (newAlertResponse rule ts href hrefOutput status srcID kapaID).links.kapacitor =
      "/chronograf/v1/sources/" ++ toString srcID ++ "/kapacitors/" ++ toString kapaID
        ++ "/proxy?path=" ++ queryEscape href ∧
    (newAlertResponse rule ts href hrefOutput status srcID kapaID).links.output =
      "/chronograf/v1/sources/" ++ toString srcID ++ "/kapacitors/" ++ toString kapaID
        ++ "/proxy?path=" ++ queryEscape hrefOutput := by
  refine ⟨?_, rfl, rfl⟩
  show ("/chronograf/v1/sources" ++ "/" ++ toString srv.srcID ++ "/kapacitors/" ++ toString srv.id) = _
  rfl

/-- Concrete rule exercising the nested-collection normalization of
`newAlertResponse`: one alert node with nil `args` holding one property with
nil `args`, and one query field with nil `funcs`. -/
def ruleNilNested : AlertRule :=
  { id := "r1"
    name := "cpu high"
    trigger := "threshold"
    triggerValues := ""
    every := "30s"
    message := ""
    alerts := none
    alertNodes := some [{ name := "slack", args := none,
                          properties := some [{ name := "channel", args := none }] }]
    query := some { id := "q1", database := "db", retentionPolicy := "rp",
                    fields := some [{ name := "usage", funcs := none }],
                    groupBy := { tags := none }, tags := none }
    tickScript := "" }

/-- Claim C2, refuted on the code: `newAlertResponse` does not normalize the
nested collections.  On a rule whose alert node has nil `args`, whose node
property has nil `args`, and whose query field has nil `funcs`, the response
still carries `none` in all three places — the `for _, n := range` loops of
kapacitors.go lines 361-373 and 384-388 assign into per-iteration value
copies, never into the slices — while the top-level `alerts` collection is
normalized as documented. -/
theorem newAlertResponse_nested_collections_stay_nil :
    (newAlertResponse ruleNilNested "" "" "" "enabled" 1 1).alertRule.alertNodes =
      some [{ name := "slack", args := none,
              properties := some [{ name := "channel", args := none }] }] ∧
    ((newAlertResponse ruleNilNested "" "" "" "enabled" 1 1).alertRule.query.map
        QueryConfig.fields) = some (some [{ name := "usage", funcs := none }]) ∧
    (newAlertResponse ruleNilNested "" "" "" "enabled" 1 1).alertRule.alerts = some [] := by
  decide

/-- Rule whose query id is non-empty and coincidentally equals the rule id. -/
def ruleEchoID : AlertRule :=
  { id := "foo"
    name := ""
    trigger := ""
    triggerValues := ""
    every := ""
    message := ""
    alerts := none
    alertNodes := none
    query := some { id := "foo", database := "db", retentionPolicy := "",
                    fields := none, groupBy := { tags := none }, tags := none }
    tickScript := "" }

/-- Claim C3 counterexample: the response's `query.id` equals the rule's id
even though the input `query.id` was not the empty string, so "equals the
rule's id if and only if the input query.id was the empty string" fails in
the only-if direction. -/
theorem newAlertResponse_queryID_iff_counterexample :
    ((newAlertResponse ruleEchoID "" "" "" "enabled" 1 1).alertRule.query.map
        QueryConfig.id) = some ruleEchoID.id ∧
    ¬ (ruleEchoID.query.map QueryConfig.id = some "") := by
  decide

/-- Claim C3 (amended): for a rule with a present query, the response's
`query.id` is the rule's id when the input `query.id` was empty, and the
input `query.id` verbatim otherwise (so it may also coincide with the rule's
id when the input happened to equal it). -/
theorem newAlertResponse_queryID_default (rule : AlertRule) (q : QueryConfig)
    (hq : rule.query = some q) (ts href ho st : String) (srcID kapaID : Int) :
    ((newAlertResponse rule ts href ho st srcID kapaID).alertRule.query.map
        QueryConfig.id) = some (if q.id = "" then rule.id else q.id) := by
  by_cases h : q.id = "" <;> simp [newAlertResponse, hq, h]

/-- Query with an empty id, for the C3 witness. -/
def queryEmptyID : QueryConfig :=
  { id := "", database := "db", retentionPolicy := "",
    fields := none, groupBy := { tags := none }, tags := none }

/-- Rule carrying `queryEmptyID`, for the C3 witness. -/
def ruleEmptyQueryID : AlertRule :=
  { id := "bar"
    name := ""
    trigger := ""
    triggerValues := ""
    every := ""
    message := ""
    alerts := none
    alertNodes := none
    query := some queryEmptyID
    tickScript := "" }

/-- Claim C3 witness: the amended theorem applied at a concrete rule whose
input query id is empty. -/
theorem newAlertResponse_queryID_default_witness :
    ((newAlertResponse ruleEmptyQueryID "t" "h" "o" "enabled" 2 3).alertRule.query.map
        QueryConfig.id) = some (if queryEmptyID.id = "" then ruleEmptyQueryID.id else queryEmptyID.id) :=
  newAlertResponse_queryID_default ruleEmptyQueryID queryEmptyID rfl "t" "h" "o" "enabled" 2 3

/-- Claim C4: `ValidRuleRequest` rejects a rule with no query; rejects a rule
whose query has some field with a non-empty funcs sequence while `every` is
empty; and accepts a rule with a present query whenever all fields have empty
funcs (regardless of `every`) or `every` is non-empty. -/
theorem validRuleRequest_characterization (rule : AlertRule) :
    (rule.query = none → ValidRuleRequest rule = some .noQueryDefined) ∧
    (∀ q, rule.query = some q → rule.every = "" →
      (∃ f ∈ q.fields.getD [], f.funcs.getD [] ≠ []) →
      ValidRuleRequest rule = some .funcsRequireEvery) ∧
    (∀ q, rule.query = some q →
      ((∀ f ∈ q.fields.getD [], f.funcs.getD [] = []) ∨ rule.every ≠ "") →
      ValidRuleRequest rule = none) := by
  refine ⟨fun h => by simp [ValidRuleRequest, h], ?_, ?_⟩
  · rintro q hq he ⟨f, hf, hfn⟩
    have hany : (q.fields.getD []).any (fun f => (f.funcs.getD []).length > 0) = true := by
      rw [List.any_eq_true]
      refine ⟨f, hf, ?_⟩
      simpa [List.length_pos] using hfn
    simp [ValidRuleRequest, hq, he, hany]
  · intro q hq h
    rcases h with h | h
    · have hany : (q.fields.getD []).any (fun f => (f.funcs.getD []).length > 0) = false := by
        rw [List.any_eq_false]
        intro f hf
        simp [h f hf]
      simp [ValidRuleRequest, hq, hany]
    · simp [ValidRuleRequest, hq, h]

/-- Query whose single field carries the aggregation function `mean`, for the
C4 witness. -/
def queryWithFuncs : QueryConfig :=
  { id := "q", database := "db", retentionPolicy := "rp",
    fields := some [{ name := "usage", funcs := some ["mean"] }],
    groupBy := { tags := none }, tags := none }

/-- Query whose single field has nil funcs, for the C4 witness. -/
def queryNoFuncs : QueryConfig :=
  { id := "q", database := "db", retentionPolicy := "rp",
    fields := some [{ name := "usage", funcs := none }],
    groupBy := { tags := none }, tags := none }

/-- Rule with no query at all, for the C4 witness. -/
def ruleNoQuery : AlertRule :=
  { id := "a", name := "", trigger := "", triggerValues := "", every := "",
    message := "", alerts := none, alertNodes := none, query := none, tickScript := "" }

/-- Rule with functions but an empty `every` window, for the C4 witness. -/
def ruleFuncsNoEvery : AlertRule :=
  { ruleNoQuery with query := some queryWithFuncs }

/-- Rule with all-empty funcs and an empty `every`, for the C4 witness. -/
def ruleNoFuncsNoEvery : AlertRule :=
  { ruleNoQuery with query := some queryNoFuncs }

/-- Rule with functions and a non-empty `every` window, for the C4 witness. -/
def ruleFuncsWithEvery : AlertRule :=
  { ruleNoQuery with query := some queryWithFuncs, every := "5m" }

/-- Claim C4 witness: the characterization applied at a rule with no query,
a rule with functions and empty `every`, a rule with all-empty funcs, and a
rule with functions and `every = "5m"`. -/
theorem validRuleRequest_characterization_witness :
    ValidRuleRequest ruleNoQuery = some .noQueryDefined ∧
    ValidRuleRequest ruleFuncsNoEvery = some .funcsRequireEvery ∧
    ValidRuleRequest ruleNoFuncsNoEvery = none ∧
    ValidRuleRequest ruleFuncsWithEvery = none :=
  ⟨(validRuleRequest_characterization ruleNoQuery).1 rfl,
   (validRuleRequest_characterization ruleFuncsNoEvery).2.1 queryWithFuncs rfl rfl (by decide),
   (validRuleRequest_characterization ruleNoFuncsNoEvery).2.2 queryNoFuncs rfl (Or.inl (by decide)),
   (validRuleRequest_characterization ruleFuncsWithEvery).2.2 queryWithFuncs rfl (Or.inr (by decide))⟩

/-- A stored instance with a unique id is found by `getServer`. -/
theorem getServer_of_mem (store : List Server) (I : Server)
    (hmem : I ∈ store) (huniq : ∀ J ∈ store, J.id = I.id → J = I) :
    getServer store I.id = some I := by
  induction store with
  | nil => exact absurd hmem (List.not_mem_nil I)
  | cons s rest ih =>
    by_cases h : s.id = I.id
    · have hs : s = I := huniq s (List.mem_cons_self s rest) h
      subst hs
      simp [getServer]
    · have hmem2 : I ∈ rest := by
        rcases List.mem_cons.mp hmem with h1 | h1
        · exact absurd (by rw [h1]) h
        · exact h1
      have huniq2 : ∀ J ∈ rest, J.id = I.id → J = I :=
        fun J hJ => huniq J (List.mem_cons_of_mem s hJ)
      have hrec := ih hmem2 huniq2
      rw [getServer] at hrec ⊢
      rw [List.find?_cons_of_neg _ (by simp [h]), hrec]

/-- An id held by no stored instance is not found by `getServer`. -/
theorem getServer_of_absent (store : List Server) (j : Int)
    (h : ∀ J ∈ store, J.id ≠ j) : getServer store j = none := by
  rw [getServer, List.find?_eq_none]
  intro a ha
  simp [h a ha]

/-- Claim C1: scope resolution is an indistinguishable NotFound: a stored
instance resolves under its own source id and is returned; under any other
source id resolution fails with `notFound` of the queried instance id — the
very same error value that resolving an id absent from the store produces,
so wrong-scope and does-not-exist cannot be told apart. -/
theorem resolveKapacitor_scope_indistinguishable (store : List Server)
    (S Sx : Int) (I : Server) (hmem : I ∈ store)
    (huniq : ∀ J ∈ store, J.id = I.id → J = I) (hsrc : I.srcID = S) :
    resolveKapacitor store S I.id = .ok I ∧
    (Sx ≠ S → resolveKapacitor store Sx I.id = .error (.notFound I.id)) ∧
    (∀ (j : Int) (store2 : List Server), (∀ J ∈ store2, J.id ≠ j) →
      resolveKapacitor store2 Sx j = .error (.notFound j)) := by
  have hget := getServer_of_mem store I hmem huniq
  refine ⟨?_, ?_, ?_⟩
  · simp [resolveKapacitor, hget, hsrc]
  · intro hne
    have : ¬ I.srcID = Sx := by rw [hsrc]; exact fun hc => hne hc.symm
    simp [resolveKapacitor, hget, this]
  · intro j store2 habs
    simp [resolveKapacitor, getServer_of_absent store2 j habs]

/-- Stored instance under source 10, for the C1 witness. -/
def srvA : Server :=
  { id := 1, srcID := 10, name := "ka", url := "http://a:9092",
    username := "", password := "", active := true }

/-- Stored instance under source 20, for the C1 witness. -/
def srvB : Server :=
  { id := 2, srcID := 20, name := "kb", url := "http://b:9092",
    username := "", password := "", active := false }

/-- Claim C1 witness: in a two-instance store, instance 1 resolves under its
own source 10, fails with `notFound 1` under source 20, and the nonexistent
id 99 fails with `notFound 99`. -/
theorem resolveKapacitor_scope_indistinguishable_witness :
    resolveKapacitor [srvA, srvB] 10 1 = .ok srvA ∧
    resolveKapacitor [srvA, srvB] 20 1 = .error (.notFound 1) ∧
    resolveKapacitor [srvA, srvB] 20 99 = .error (.notFound 99) := by
  have h := resolveKapacitor_scope_indistinguishable [srvA, srvB] 10 20 srvA
    (by decide) (by decide) rfl
  exact ⟨h.1, h.2.1 (by decide), h.2.2 99 [srvA, srvB] (by decide)⟩

/-- The amended creation precondition, in the spec's terms: `name` and `url`
present (non-nil) and `url` parsing as an absolute URI with a non-empty
scheme. -/
def creationPrecondition (req : PostKapacitorRequest) : Bool :=
  req.name.isSome &&
    (match req.url with
     | none => false
     | some u =>
       match parseRequestURI u with
       | none => false
       | some parsed => !(parsed.scheme == ""))

/-- `postKapacitorRequest.Valid` succeeds exactly on the amended creation
precondition. -/
theorem postValid_iff_precondition (req : PostKapacitorRequest) :
    req.Valid = none ↔ creationPrecondition req = true := by
  rcases req with ⟨n, u, us, pw, a⟩
  cases n <;> cases u <;>
    simp [PostKapacitorRequest.Valid, creationPrecondition]
  rename_i u
  cases hp : parseRequestURI u with
  | none => simp [hp]
  | some parsed =>
    by_cases hs : parsed.scheme = "" <;> simp [hp, hs]

/-- Request with a present-but-empty name, for the C5 counterexample. -/
def reqEmptyName : PostKapacitorRequest :=
  { name := some "", url := some "http://localhost:9092",
    username := "", password := "", active := false }

/-- Claim C5 counterexample: a creation request whose `name` is present but
equal to the empty string passes validation, and the handler creates the
instance, although the claim requires every request with an empty name to
fail with an invalid-instance error. -/
theorem newKapacitorHandler_empty_name_created :
    reqEmptyName.name = some "" ∧
    reqEmptyName.Valid = none ∧
    (newKapacitorHandler [1] 1 reqEmptyName 2).isCreated = true := by
  decide

/-- Claim C5 (amended): creation fails with `notFound` when the owning source
does not exist; with the source present it fails with an invalid-instance
error whenever `name` or `url` is absent (nil) or `url` does not parse as an
absolute URI with a non-empty scheme, and creates the instance otherwise
(a present-but-empty name is accepted). -/
theorem newKapacitorHandler_validation (sources : List Int) (srcID : Int)
    (req : PostKapacitorRequest) (assignedID : Int) :
    (sources.contains srcID = false →
      newKapacitorHandler sources srcID req assignedID = .notFound srcID) ∧
    (sources.contains srcID = true → creationPrecondition req = false →
      (newKapacitorHandler sources srcID req assignedID).isInvalidData = true) ∧
    (sources.contains srcID = true → creationPrecondition req = true →
      (newKapacitorHandler sources srcID req assignedID).isCreated = true) := by
  refine ⟨?_, ?_, ?_⟩
  · intro h
    have hm : ¬ srcID ∈ sources := by simpa using h
    simp [newKapacitorHandler, hm]
  · intro h hpre
    have hm : srcID ∈ sources := by simpa using h
    cases hv : req.Valid with
    | none =>
      rw [postValid_iff_precondition req] at hv
      rw [hv] at hpre
      cases hpre
    | some e => simp [newKapacitorHandler, hm, hv, NewKapacitorResult.isInvalidData]
  · intro h hpre
    have hm : srcID ∈ sources := by simpa using h
    have hv : req.Valid = none := (postValid_iff_precondition req).mpr hpre
    simp [newKapacitorHandler, hm, hv, NewKapacitorResult.isCreated]

/-- Well-formed creation request, for the C5 witness. -/
def reqKapa1 : PostKapacitorRequest :=
  { name := some "kapa1", url := some "http://localhost:9092",
    username := "", password := "", active := true }

/-- Creation request missing its name, for the C5 witness. -/
def reqNoName : PostKapacitorRequest :=
  { name := none, url := some "http://localhost:9092",
    username := "", password := "", active := false }

/-- Claim C5 witness: the amended theorem applied with a missing source, a
nil name, and a fully valid request. -/
theorem newKapacitorHandler_validation_witness :
    newKapacitorHandler [1] 2 reqKapa1 9 = .notFound 2 ∧
    (newKapacitorHandler [1] 1 reqNoName 9).isInvalidData = true ∧
    (newKapacitorHandler [1] 1 reqKapa1 9).isCreated = true :=
  ⟨(newKapacitorHandler_validation [1] 2 reqKapa1 9).1 (by decide),
   (newKapacitorHandler_validation [1] 1 reqNoName 9).2.1 (by decide) (by decide),
   (newKapacitorHandler_validation [1] 1 reqKapa1 9).2.2 (by decide) (by decide)⟩

/-- Claim C6: the instance update is a partial merge: each request field that
is absent leaves the stored value unchanged, each present field overwrites
it, and the instance's remaining fields — its identity `id` and owning
`srcID` — are never modified. -/
theorem updateKapacitorMerge_partial_merge (srv : Server) (req : PatchKapacitorRequest) :
    (req.name = none → (updateKapacitorMerge srv req).name = srv.name) ∧
    (∀ v, req.name = some v → (updateKapacitorMerge srv req).name = v) ∧
    (req.url = none → (updateKapacitorMerge srv req).url = srv.url) ∧
    (∀ v, req.url = some v → (updateKapacitorMerge srv req).url = v) ∧
    (req.username = none → (updateKapacitorMerge srv req).username = srv.username) ∧
    (∀ v, req.username = some v → (updateKapacitorMerge srv req).username = v) ∧
    (req.password = none → (updateKapacitorMerge srv req).password = srv.password) ∧
    (∀ v, req.password = some v → (updateKapacitorMerge srv req).password = v) ∧
    (req.active = none → (updateKapacitorMerge srv req).active = srv.active) ∧
    (∀ v, req.active = some v → (updateKapacitorMerge srv req).active = v) ∧
    (updateKapacitorMerge srv req).id = srv.id ∧
    (updateKapacitorMerge srv req).srcID = srv.srcID := by
  rcases req with ⟨n, u, us, pw, a⟩
  cases n <;> cases u <;> cases us <;> cases pw <;> cases a <;>
    simp [updateKapacitorMerge]

/-- Stored instance for the C6 witness. -/
def srvStored : Server :=
  { id := 5, srcID := 3, name := "old", url := "http://old:9092",
    username := "u", password := "p", active := false }

/-- Patch overwriting name, password and active while leaving url and
username absent, for the C6 witness. -/
def patchMixed : PatchKapacitorRequest :=
  { name := some "new", url := none, username := none,
    password := some "p2", active := some true }

/-- Claim C6 witness: the merge theorem applied at a concrete instance and a
mixed patch — present fields overwrite, absent fields and the identity are
unchanged. -/
theorem updateKapacitorMerge_partial_merge_witness :
    (updateKapacitorMerge srvStored patchMixed).name = "new" ∧
    (updateKapacitorMerge srvStored patchMixed).url = srvStored.url ∧
    (updateKapacitorMerge srvStored patchMixed).username = srvStored.username ∧
    (updateKapacitorMerge srvStored patchMixed).password = "p2" ∧
    (updateKapacitorMerge srvStored patchMixed).active = true ∧
    (updateKapacitorMerge srvStored patchMixed).id = srvStored.id ∧
    (updateKapacitorMerge srvStored patchMixed).srcID = srvStored.srcID := by
  obtain ⟨h1, h2, h3, h4, h5, h6, h7, h8, h9, h10, h11, h12⟩ :=
    updateKapacitorMerge_partial_merge srvStored patchMixed
  exact ⟨h2 "new" rfl, h3 rfl, h5 rfl, h8 "p2" rfl, h10 true rfl, h11, h12⟩

/-- Claim C9: the bulk rule listing is the merge by task id of the bulk task
listing and the bulk status listing: every listed rule whose id has an entry
in the status map contributes a response with that status, and every response
entry arises from a listed rule with a status entry, so a rule whose id is
absent from the status map is excluded. -/
theorem kapacitorRulesGetMerge_merge_by_id (rules : List AlertRule)
    (statuses : List (String × String)) (srcID kapaID : Int) :
    (∀ rule ∈ rules, ∀ st, lookupStatus statuses rule.id = some st →
      newAlertResponse rule rule.tickScript (clientHref rule.id)
        (clientHrefOutput rule.id) st srcID kapaID ∈
          kapacitorRulesGetMerge rules statuses srcID kapaID) ∧
    (∀ resp ∈ kapacitorRulesGetMerge rules statuses srcID kapaID,
      ∃ rule ∈ rules, ∃ st, lookupStatus statuses rule.id = some st ∧
        resp = newAlertResponse rule rule.tickScript (clientHref rule.id)
          (clientHrefOutput rule.id) st srcID kapaID) := by
  constructor
  · intro rule hr st hst
    rw [kapacitorRulesGetMerge]
    exact List.mem_filterMap.mpr ⟨rule, hr, by rw [hst]⟩
  · intro resp hresp
    rw [kapacitorRulesGetMerge] at hresp
    rcases List.mem_filterMap.mp hresp with ⟨rule, hr, hf⟩
    cases hst : lookupStatus statuses rule.id with
    | none => rw [hst] at hf; cases hf
    | some st =>
      rw [hst] at hf
      exact ⟨rule, hr, st, hst, (Option.some.injEq _ _ ▸ hf).symm⟩

/-- Listed rule with a status entry, for the C9 witness. -/
def ruleListedA : AlertRule :=
  { id := "t1", name := "a", trigger := "", triggerValues := "", every := "",
    message := "", alerts := none, alertNodes := none, query := none,
    tickScript := "script-a" }

/-- Listed rule without a status entry, for the C9 witness. -/
def ruleListedB : AlertRule :=
  { ruleListedA with id := "t2", name := "b", tickScript := "script-b" }

/-- Status map holding only the first rule's id, for the C9 witness. -/
def statusesAB : List (String × String) := [("t1", "enabled")]

/-- Claim C9 witness: in a listing of two rules of which only `t1` has a
status entry, the merged response contains exactly the `t1` response. -/
theorem kapacitorRulesGetMerge_merge_by_id_witness :
    lookupStatus statusesAB ruleListedA.id = some "enabled" ∧
    newAlertResponse ruleListedA ruleListedA.tickScript (clientHref ruleListedA.id)
      (clientHrefOutput ruleListedA.id) "enabled" 1 2 ∈
        kapacitorRulesGetMerge [ruleListedA, ruleListedB] statusesAB 1 2 :=
  ⟨rfl,
   (kapacitorRulesGetMerge_merge_by_id [ruleListedA, ruleListedB] statusesAB 1 2).1
     ruleListedA (List.mem_cons_self ruleListedA [ruleListedB]) "enabled" rfl⟩

/-- Claim C10: when `KapacitorRulesPut` reaches the remote `Update` call, the
rule it sends carries the task id taken from the request path — any id
supplied in the body is overwritten — every other rule field is passed
through unchanged, and the target href is derived from the path's task id. -/
theorem kapacitorRulesPut_id_from_path (store : List Server) (srcID kid : Int)
    (tid : String) (engineGet : String → Option AlertRule) (req : AlertRule)
    (call : String × AlertRule)
    (h : kapacitorRulesPutUpdateCall store srcID kid tid engineGet req = some call) :
    call.2.id = tid ∧ call.2 = { req with id := tid } ∧ call.1 = clientHref tid := by
  rw [kapacitorRulesPutUpdateCall] at h
  cases hres : resolveKapacitor store srcID kid with
  | error e => rw [hres] at h; cases h
  | ok srv =>
    rw [hres] at h
    cases hg : engineGet tid with
    | none => rw [hg] at h; cases h
    | some r =>
      rw [hg] at h
      have := (Option.some.injEq _ _ ▸ h)
      rw [← this]
      exact ⟨rfl, rfl, rfl⟩

/-- Request body carrying a foreign task id, for the C10 witness. -/
def ruleBodyForeign : AlertRule :=
  { id := "other-task", name := "n", trigger := "", triggerValues := "",
    every := "10s", message := "", alerts := none, alertNodes := none,
    query := none, tickScript := "" }

/-- Engine stub that reports every task as existing, for the C10 witness. -/
def engineGetAlways (tid : String) : Option AlertRule :=
  some { ruleBodyForeign with id := tid }

/-- Claim C10 witness: with instance 1 of source 10 resolved and the engine
reporting task `task-7`, the update call derived from a body whose id is
`other-task` still carries id `task-7` and the href of `task-7`. -/
theorem kapacitorRulesPut_id_from_path_witness :
    kapacitorRulesPutUpdateCall [srvA] 10 1 "task-7" engineGetAlways ruleBodyForeign =
      some (clientHref "task-7", { ruleBodyForeign with id := "task-7" }) ∧
    ((clientHref "task-7", { ruleBodyForeign with id := "task-7" }) : String × AlertRule).2.id =
      "task-7" :=
  ⟨rfl,
   (kapacitorRulesPut_id_from_path [srvA] 10 1 "task-7" engineGetAlways ruleBodyForeign
     (clientHref "task-7", { ruleBodyForeign with id := "task-7" }) rfl).1⟩

end Chronograf
